import Mathlib

set_option maxRecDepth 8000

/-- A JSON-like value as produced and consumed by the Python json module;
the engine scripts exchange their request and their response as such
values, and this development keeps the insertion order of object fields the
way json.dumps prints them. -/
inductive JVal where
  | str (s : String)
  | num (n : Int)
  | bool (b : Bool)
  | null
  | arr (xs : List JVal)
  | obj (fields : List (String × JVal))

/-- First-match lookup in the field list of a JSON object, the dictionary
lookup of the Python runtime (the objects produced by json.loads have
unique keys). -/
def jLookup : List (String × JVal) → String → Option JVal
  | [], _ => none
  | (k, v) :: rest, key => if k = key then some v else jLookup rest key

/-- Field lookup on a JSON value, none on anything that is not an object;
this is the Python dict .get method with default None. -/
def JVal.get : JVal → String → Option JVal
  | .obj fs, key => jLookup fs key
  | _, _ => none

/-- Whether a JSON value is a string, the isinstance str test applied by
subprocess.run to every element of its argument list. -/
def JVal.isStr : JVal → Bool
  | .str _ => true
  | _ => false

/-- The Python type name of a decoded JSON value, used in the messages of
the TypeError exceptions modelled below. -/
def pyTypeName : JVal → String
  | .str _ => "str"
  | .num _ => "int"
  | .bool _ => "bool"
  | .null => "NoneType"
  | .arr _ => "list"
  | .obj _ => "dict"

/-- Whether the first character list occurs at the very start of the
second. -/
def seqAtHead : List Char → List Char → Bool
  | [], _ => true
  | _ :: _, [] => false
  | a :: as, b :: bs => a == b && seqAtHead as bs

/-- Whether the first character list occurs contiguously anywhere inside
the second; this is the Python substring containment of the in operator. -/
def containsSeq (needle : List Char) : List Char → Bool
  | [] => needle.isEmpty
  | c :: rest => seqAtHead needle (c :: rest) || containsSeq needle rest

/-- Modelled from the Python semantics of the membership test key in data on
a decoded JSON value: key membership on a dict, element equality on a list,
substring search on a string, and a TypeError on the non-iterable types. -/
def pyIn (v : JVal) (key : String) : Except String Bool :=
  match v with
  | .obj fs => .ok ((fs.map Prod.fst).contains key)
  | .arr xs => .ok (xs.any fun x => match x with | .str s => s == key | _ => false)
  | .str s => .ok (containsSeq key.toList s.toList)
  | other => .error ("argument of type \x27" ++ pyTypeName other ++ "\x27 is not iterable")

/-- Modelled from the Python semantics of the subscript data[key] on a
decoded JSON value: dictionary lookup on objects (a KeyError whose str() is
the quoted key when absent) and a TypeError on every other type. -/
def pyIndex (v : JVal) (key : String) : Except String JVal :=
  match v with
  | .obj fs =>
    match jLookup fs key with
    | some x => .ok x
    | none => .error ("\x27" ++ key ++ "\x27")
  | .arr _ => .error "list indices must be integers or slices, not str"
  | .str _ => "string indices must be integers, not \x27str\x27" |> .error
  | other => .error ("\x27" ++ pyTypeName other ++ "\x27 object is not subscriptable")

/-- Modelled from the Python base64.b64decode entry point: a string argument
is decoded by the oracle dec (the stdlib decoder itself is external to this
repository); any other JSON value raises a TypeError. -/
def pyB64 (dec : String → Except String (List Nat)) : JVal → Except String (List Nat)
  | .str s => dec s
  | other =>
    .error ("argument should be a bytes-like object or ASCII string, not \x27" ++ pyTypeName other ++ "\x27")

/-- One markdown file found by out_dir.rglob in the scratch output directory
of the mineru engine: the absolute path string str(p), the path relative to
out_dir, the result of p.read_text when it succeeds (none when it raises),
the permissive fallback decoding of p.read_bytes, and the st_size of the
file in bytes. -/
structure MdFile where
  path : String
  rel : String
  utf8Text : Option String
  rawText : String
  size : Nat

/-- Lexicographic comparison of two character lists by code point, the
string comparison Python applies when sorting the path strings. -/
def charListLe : List Char → List Char → Bool
  | [], _ => true
  | _ :: _, [] => false
  | a :: as, b :: bs => if a = b then charListLe as bs else decide (a < b)

/-- The lexicographic comparison is total. -/
theorem charListLe_total : ∀ as bs, charListLe as bs = true ∨ charListLe bs as = true
  | [], _ => .inl rfl
  | _ :: _, [] => .inr rfl
  | a :: as, b :: bs => by
    by_cases hab : a = b
    · subst hab
      rcases charListLe_total as bs with h | h
      · exact .inl (by simpa [charListLe] using h)
      · exact .inr (by simpa [charListLe] using h)
    · rcases lt_trichotomy a b with h | h | h
      · exact .inl (by simp [charListLe, hab, h])
      · exact absurd h hab
      · exact .inr (by simp [charListLe, Ne.symm hab, h])

/-- The lexicographic comparison is transitive. -/
theorem charListLe_trans :
    ∀ as bs cs, charListLe as bs = true → charListLe bs cs = true → charListLe as cs = true
  | [], _, _, _, _ => rfl
  | _ :: _, [], _, h, _ => by simp [charListLe] at h
  | _ :: _, _ :: _, [], _, h => by simp [charListLe] at h
  | a :: as, b :: bs, c :: cs, h1, h2 => by
    by_cases hab : a = b <;> by_cases hbc : b = c
    · subst hab; subst hbc
      simp only [charListLe, if_pos rfl] at h1 h2 ⊢
      exact charListLe_trans as bs cs h1 h2
    · subst hab
      simp only [charListLe, if_neg hbc] at h2 ⊢
      exact h2
    · subst hbc
      simp only [charListLe, if_neg hab] at h1 ⊢
      exact h1
    · simp only [charListLe, if_neg hab] at h1
      simp only [charListLe, if_neg hbc] at h2
      have hac : a < c := lt_trans (of_decide_eq_true h1) (of_decide_eq_true h2)
      have hne : ¬ a = c := ne_of_lt hac
      simp [charListLe, hne, hac]

/-- Comparison of two markdown files by their path strings, the sort key
str(p) used by find_markdown_files. -/
def pathLe (a b : MdFile) : Prop := charListLe a.path.toList b.path.toList = true

instance : DecidableRel pathLe := fun a b =>
  inferInstanceAs (Decidable (charListLe a.path.toList b.path.toList = true))

instance : IsTotal MdFile pathLe := ⟨fun a b => charListLe_total a.path.toList b.path.toList⟩

instance : IsTrans MdFile pathLe :=
  ⟨fun a b c h1 h2 => charListLe_trans a.path.toList b.path.toList c.path.toList h1 h2⟩

/-- Embedding of find_markdown_files of mineru_engine.py: given the files
matched by out_dir.rglob, return the empty list when there are none and
otherwise the listing sorted ascending by path string (Python list.sort is
a stable ascending sort, modelled by the stable insertion sort). -/
def find_markdown_files (md_files : List MdFile) : List MdFile :=
  match md_files with
  | [] => []
  | _ => List.insertionSort pathLe md_files

/-- The text of one markdown file as read by the mineru engine: p.read_text
when it succeeds, otherwise the permissive decoding of p.read_bytes with
invalid sequences replaced (that decoding never raises). -/
def mdContent (f : MdFile) : String := f.utf8Text.getD f.rawText

/-- Outcome of the one subprocess.run call of the mineru engine: either the
child exited (return code, captured stdout, captured stderr) or the timeout
expired; in the latter case the output captured up to that point is held by
the TimeoutExpired exception and carried here, but the engine never reads
it. -/
inductive RunOut where
  | exited (rc : Int) (out err : String)
  | timedOut (po pe : String)

/-- Observable result of one engine process: the JSON objects printed to
standard output in order, the process exit status, whether deletion of the
scratch resource was attempted, and, for the mineru engine, the argument
list and the timeout value passed to subprocess.run when that call was
reached. -/
structure ProcResult where
  printed : List JVal
  exitCode : Nat
  cleanupAttempted : Bool
  cmdTrace : Option (List JVal)
  timeoutTrace : Option JVal

/-- Environment of one mineru_engine.py invocation: the raw stdin payload,
the oracle outcomes of json.loads, base64.b64decode, the scratch directory
path from tempfile.mkdtemp, the subprocess.run outcome, the rglob listing of
the output directory, and whether the final shutil.rmtree succeeds. -/
structure MineruEnv where
  payload : String
  loads : Except String JVal
  b64 : String → Except String (List Nat)
  tmpDir : String
  run : RunOut
  mdListing : List MdFile
  rmtreeOk : Bool

/-- The failure response object of the outermost exception handler of
mineru_engine.main. -/
def mineruFailObj (msg : String) : JVal :=
  .obj [("success", .bool false), ("engine", .str "mineru"), ("error", .str msg)]

/-- A failed mineru run: one failure object printed, exit status 1. -/
def mkMineruFail (msg : String) (att : Bool) (c : Option (List JVal)) (t : Option JVal) : ProcResult :=
  { printed := [mineruFailObj msg], exitCode := 1, cleanupAttempted := att,
    cmdTrace := c, timeoutTrace := t }

/-- The failure response object of the non-zero-exit branch of
mineru_engine.main, carrying the return code and the captured output. -/
def mineruRcFailObj (rc : Int) (out err : String) : JVal :=
  .obj [("success", .bool false), ("engine", .str "mineru"),
        ("error", .str "mineru CLI failed"), ("returncode", .num rc),
        ("stdout", .str out), ("stderr", .str err)]

/-- One entry of the files list of the mineru success response. -/
def fileEntry (f : MdFile) : JVal :=
  .obj [("path", .str f.rel), ("full_path", .str f.path), ("size", .num (Int.ofNat f.size))]

/-- The success response object of mineru_engine.main: the markdown files
are listed in their sorted order and their contents are joined with the
fixed separator. -/
def mineruSuccessObj (md : List MdFile) (out err : String) : JVal :=
  .obj [("success", .bool true), ("engine", .str "mineru"),
        ("output", .str (String.intercalate "\n\n---\n\n" (md.map mdContent))),
        ("files", .arr (md.map fileEntry)),
        ("mineru_stdout", .str out), ("mineru_stderr", .str err)]

/-- Argument list built for the mineru CLI: the fixed flags naming the input
file and the output directory inside the scratch directory, then the caller
cli_args extended verbatim when that value is a list; any other value fails
the isinstance list test and is ignored. -/
def mineruCmd (env : MineruEnv) (data : JVal) : List JVal :=
  let base : List JVal :=
    [.str "mineru", .str "-p", .str (env.tmpDir ++ "/input.pdf"),
     .str "-o", .str (env.tmpDir ++ "/out")]
  match data.get "cli_args" with
  | some (JVal.arr xs) => base ++ xs
  | _ => base

/-- Timeout argument of the subprocess.run call: the timeout_seconds value
of the payload when the key is present, otherwise 240. -/
def mineruTimeoutArg (data : JVal) : JVal :=
  (data.get "timeout_seconds").getD (.num 240)

/-- A value subprocess.run accepts as its timeout: a number, None (no
timeout), or a Boolean (Python Booleans are integers); anything else raises
a TypeError when the deadline arithmetic runs. -/
def validTimeoutArg : JVal → Bool
  | .num _ => true
  | .null => true
  | .bool _ => true
  | _ => false

/-- Modelled from the Python stdlib: the str() of one element inside the
str() of the argument list. Only string elements can reach the timeout
message, because subprocess.run rejects non-string arguments before any
timeout can expire. -/
def elemRepr : JVal → String
  | .str s => "\x27" ++ s ++ "\x27"
  | .num n => toString n
  | .bool true => "True"
  | .bool false => "False"
  | .null => "None"
  | _ => "..."

/-- Modelled from the Python stdlib str() of a list value. -/
def pyListStr (xs : List JVal) : String :=
  "[" ++ String.intercalate ", " (xs.map elemRepr) ++ "]"

/-- Modelled from the Python stdlib str() of subprocess.TimeoutExpired,
which formats the command list and the timeout value into a fixed
sentence. -/
def timeoutMsg (cmd : List JVal) (t : JVal) : String :=
  "Command \x27" ++ pyListStr cmd ++ "\x27 timed out after " ++ elemRepr t ++ " seconds"

/-- The body of mineru_engine.main from the point where the scratch
directory exists: build the CLI command and the timeout value, run the
external process, and render either the failure or the success response.
The finally block attempts shutil.rmtree on every path out of this body and
swallows its failure with a bare except, so no field of the result reads
rmtreeOk. -/
def mineruInner (env : MineruEnv) (data : JVal) : ProcResult :=
  let cmd := mineruCmd env data
  let tArg := mineruTimeoutArg data
  match cmd.all JVal.isStr, validTimeoutArg tArg with
  | false, _ =>
    mkMineruFail "expected str, bytes or os.PathLike object" true (some cmd) (some tArg)
  | true, false =>
    mkMineruFail ("unsupported operand type(s) for +: \x27float\x27 and \x27" ++ pyTypeName tArg ++ "\x27")
      true (some cmd) (some tArg)
  | true, true =>
    match env.run with
    | .timedOut _ _ => mkMineruFail (timeoutMsg cmd tArg) true (some cmd) (some tArg)
    | .exited rc out err =>
      if rc ≠ 0 then
        { printed := [mineruRcFailObj rc out err], exitCode := 1, cleanupAttempted := true,
          cmdTrace := some cmd, timeoutTrace := some tArg }
      else
        { printed := [mineruSuccessObj (find_markdown_files env.mdListing) out err],
          exitCode := 0, cleanupAttempted := true,
          cmdTrace := some cmd, timeoutTrace := some tArg }

/-- Embedding of mineru_engine.main: the empty-payload check, the
json.loads call, the pdf membership test, the subscript, the base64 decode
(all before the scratch directory is created), then the inner body; every
exception raised on the way is rendered by the outermost handler as the
failure response with exit status 1. -/
def mineruMain (env : MineruEnv) : ProcResult :=
  if env.payload = "" then
    mkMineruFail "No input payload provided on stdin" false none none
  else
    match env.loads with
    | .error m => mkMineruFail m false none none
    | .ok data =>
      match pyIn data "pdf" with
      | .error m => mkMineruFail m false none none
      | .ok false =>
          mkMineruFail "Payload must include base64 \x27pdf\x27 field" false none none
      | .ok true =>
          match pyIndex data "pdf" with
          | .error m => mkMineruFail m false none none
          | .ok pv =>
            match pyB64 env.b64 pv with
            | .error m => mkMineruFail m false none none
            | .ok _ => mineruInner env data

/-- Result of the try and except blocks of the markitdown and tesseract
engines before the finally block runs: the printed objects, the exit status
requested by sys.exit, and whether the temporary file had been created when
control left the body. -/
structure BodyOut where
  printed : List JVal
  baseExit : Nat
  tmpCreated : Bool

/-- The failure response object of the markitdown and tesseract engines. -/
def engFailObj (engine msg : String) : JVal :=
  .obj [("success", .bool false), ("engine", .str engine), ("error", .str msg)]

/-- The success response object of the markitdown and tesseract engines. -/
def engSuccessObj (engine out : String) : JVal :=
  .obj [("success", .bool true), ("engine", .str engine), ("output", .str out)]

/-- Environment of one markitdown_engine.py invocation: the oracle outcomes
of json.loads, base64.b64decode and the MarkItDown convert call (whose
text_content may be None), whether the temporary file still exists when the
finally block runs, and whether os.unlink succeeds. -/
structure MarkEnv where
  loads : Except String JVal
  b64 : String → Except String (List Nat)
  convertResult : Except String (Option String)
  tmpExists : Bool
  unlinkOk : Bool

/-- The try and except blocks of markitdown_engine.main: json.loads, the
pdf subscript, the base64 decode, the temporary-file write, the library
convert call, and the exception handler rendering any raised exception as
the failure response. -/
def markitdownCore (env : MarkEnv) : BodyOut :=
  match env.loads with
  | .error m => { printed := [engFailObj "markitdown" m], baseExit := 1, tmpCreated := false }
  | .ok data =>
    match pyIndex data "pdf" with
    | .error m => { printed := [engFailObj "markitdown" m], baseExit := 1, tmpCreated := false }
    | .ok pv =>
      match pyB64 env.b64 pv with
      | .error m => { printed := [engFailObj "markitdown" m], baseExit := 1, tmpCreated := false }
      | .ok _ =>
        match env.convertResult with
        | .error m => { printed := [engFailObj "markitdown" m], baseExit := 1, tmpCreated := true }
        | .ok tc =>
          { printed := [engSuccessObj "markitdown" (tc.getD "")], baseExit := 0, tmpCreated := true }

/-- Embedding of markitdown_engine.main including the finally block:
deletion of the temporary file is attempted when the file was created and
still exists; the os.unlink call is not guarded, so a deletion failure
propagates out of main after the response was already printed, and the
interpreter then terminates with exit status 1 whatever sys.exit had
requested. -/
def markitdownMain (env : MarkEnv) : ProcResult :=
  let b := markitdownCore env
  let att := b.tmpCreated && env.tmpExists
  { printed := b.printed
    exitCode := if att && !env.unlinkOk then 1 else b.baseExit
    cleanupAttempted := att
    cmdTrace := none
    timeoutTrace := none }

/-- Environment of one tesseract_engine.py invocation: the oracle outcomes
of json.loads, base64.b64decode and convert_from_path, the per-page
pytesseract outcomes carried with the page sequence, whether the temporary
file still exists at the finally block, and whether os.unlink succeeds. -/
structure TessEnv where
  loads : Except String JVal
  b64 : String → Except String (List Nat)
  rasterize : Except String (List (Except String String))
  tmpExists : Bool
  unlinkOk : Bool

/-- The OCR loop of tesseract_engine.main: pages are recognized one after
the other in page order and the first page whose recognition raises aborts
the whole loop with that failure. -/
def ocrAll : List (Except String String) → Except String (List String)
  | [] => .ok []
  | .error m :: _ => .error m
  | .ok t :: rest =>
    match ocrAll rest with
    | .error m => .error m
    | .ok ts => .ok (t :: ts)

/-- The try and except blocks of tesseract_engine.main: json.loads, the pdf
subscript, the base64 decode, the temporary-file write, the rasterization,
the per-page OCR loop, and the exception handler rendering any raised
exception as the failure response. -/
def tesseractCore (env : TessEnv) : BodyOut :=
  match env.loads with
  | .error m => { printed := [engFailObj "tesseract" m], baseExit := 1, tmpCreated := false }
  | .ok data =>
    match pyIndex data "pdf" with
    | .error m => { printed := [engFailObj "tesseract" m], baseExit := 1, tmpCreated := false }
    | .ok pv =>
      match pyB64 env.b64 pv with
      | .error m => { printed := [engFailObj "tesseract" m], baseExit := 1, tmpCreated := false }
      | .ok _ =>
        match env.rasterize with
        | .error m => { printed := [engFailObj "tesseract" m], baseExit := 1, tmpCreated := true }
        | .ok pages =>
          match ocrAll pages with
          | .error m => { printed := [engFailObj "tesseract" m], baseExit := 1, tmpCreated := true }
          | .ok ts =>
            { printed := [engSuccessObj "tesseract" (String.intercalate "\n\n" ts)],
              baseExit := 0, tmpCreated := true }

/-- Embedding of tesseract_engine.main including the finally block, whose
unguarded os.unlink behaves exactly as in the markitdown engine. -/
def tesseractMain (env : TessEnv) : ProcResult :=
  let b := tesseractCore env
  let att := b.tmpCreated && env.tmpExists
  { printed := b.printed
    exitCode := if att && !env.unlinkOk then 1 else b.baseExit
    cleanupAttempted := att
    cmdTrace := none
    timeoutTrace := none }

/-- The single response object of a run, when exactly one object was
printed on standard output. -/
def respObj (r : ProcResult) : Option JVal :=
  match r.printed with
  | [v] => some v
  | _ => none

/-- One named field of the emitted response object. -/
def respField (r : ProcResult) (k : String) : Option JVal :=
  (respObj r).bind (fun v => v.get k)

/-- The keys of a JSON object in their printed order. -/
def jKeys : JVal → List String
  | .obj fs => fs.map Prod.fst
  | _ => []

/-- Every path out of the scratch-directory scope of the mineru engine runs
the cleanup attempt of the finally block. -/
theorem mineruInner_cleanup (env : MineruEnv) (data : JVal) :
    (mineruInner env data).cleanupAttempted = true := by
  simp only [mineruInner]
  repeat' split
  all_goals rfl

/-- When the request decode phase of the mineru engine succeeds, main
reduces to the scratch-directory body. -/
theorem mineruMain_decoded (e : MineruEnv) (d pv : JVal) (bs : List Nat)
    (hp : e.payload ≠ "") (hl : e.loads = .ok d) (hin : pyIn d "pdf" = .ok true)
    (hx : pyIndex d "pdf" = .ok pv) (hb : pyB64 e.b64 pv = .ok bs) :
    mineruMain e = mineruInner e d := by
  simp only [mineruMain, if_neg hp, hl, hin, hx, hb]

/-- When the argument list and the timeout value are acceptable to
subprocess.run and the child exits, the scratch-directory body renders the
response decided by the return code. -/
theorem mineruInner_exited (e : MineruEnv) (d : JVal) (rc : Int) (out err : String)
    (hc : (mineruCmd e d).all JVal.isStr = true)
    (ht : validTimeoutArg (mineruTimeoutArg d) = true)
    (hr : e.run = .exited rc out err) :
    mineruInner e d =
      if rc ≠ 0 then
        { printed := [mineruRcFailObj rc out err], exitCode := 1, cleanupAttempted := true,
          cmdTrace := some (mineruCmd e d), timeoutTrace := some (mineruTimeoutArg d) }
      else
        { printed := [mineruSuccessObj (find_markdown_files e.mdListing) out err],
          exitCode := 0, cleanupAttempted := true, cmdTrace := some (mineruCmd e d),
          timeoutTrace := some (mineruTimeoutArg d) } := by
  simp only [mineruInner, hc, ht, hr]

/-- When the argument list and the timeout value are acceptable to
subprocess.run and the timeout expires, the scratch-directory body renders
the timeout failure. -/
theorem mineruInner_timedOut (e : MineruEnv) (d : JVal) (po pe : String)
    (hc : (mineruCmd e d).all JVal.isStr = true)
    (ht : validTimeoutArg (mineruTimeoutArg d) = true)
    (hr : e.run = .timedOut po pe) :
    mineruInner e d =
      mkMineruFail (timeoutMsg (mineruCmd e d) (mineruTimeoutArg d)) true
        (some (mineruCmd e d)) (some (mineruTimeoutArg d)) := by
  simp only [mineruInner, hc, ht, hr]

/-- A base64 oracle for the concrete environments below: the empty string
decodes to the empty byte string, as base64.b64decode does. -/
def b64demo : String → Except String (List Nat) := fun s =>
  if s = "" then .ok [] else .ok [37, 80, 68, 70]

/-- A well-formed request object holding only the pdf field. -/
def pdfReq : JVal := .obj [("pdf", .str "JVBERg==")]

/-- Concrete markdown files for the output-directory scenarios. -/
def mdA : MdFile := ⟨"/tmp/mx/out/a.md", "a.md", some "A", "A", 1⟩

def mdB : MdFile := ⟨"/tmp/mx/out/b.md", "b.md", some "B", "B", 1⟩

def mdC : MdFile := ⟨"/tmp/mx/out/c.md", "c.md", some "C", "C", 1⟩

/-- A markitdown environment whose request decodes and whose conversion
succeeds. -/
def markEnvOk : MarkEnv :=
  { loads := .ok pdfReq, b64 := b64demo, convertResult := .ok (some "hello"),
    tmpExists := true, unlinkOk := true }

/-- A mineru environment whose request decodes, whose child exits with
status 0 and whose output directory holds three markdown files listed out
of order. -/
def mineruEnvOk : MineruEnv :=
  { payload := "req", loads := .ok pdfReq, b64 := b64demo, tmpDir := "/tmp/mx",
    run := .exited 0 "so" "se", mdListing := [mdB, mdA, mdC], rmtreeOk := true }

/-- C1 counterexample: in the markitdown engine a failing deletion of the
temporary file is not swallowed; it flips the exit status of a successful
conversion from 0 to 1 (the printed response itself is unchanged). -/
theorem c1_counterexample :
    (markitdownMain markEnvOk).exitCode = 0
    ∧ (markitdownMain { markEnvOk with unlinkOk := false }).exitCode = 1
    ∧ (markitdownMain { markEnvOk with unlinkOk := false }).printed
        = (markitdownMain markEnvOk).printed :=
  ⟨rfl, rfl, rfl⟩

/-- C1 (amended): every engine attempts deletion of its scratch resource
after the body completes or faults (for the file engines: whenever the file
was created and still exists); a deletion failure is swallowed by the
mineru engine, whose whole observable result ignores the rmtree outcome,
while in the markitdown and tesseract engines a deletion failure leaves the
printed response and the attempt flag unchanged but forces exit status 1
instead of the status requested by sys.exit. -/
theorem c1_cleanup_amended :
    (∀ (e : MineruEnv) (b : Bool), mineruMain { e with rmtreeOk := b } = mineruMain e)
    ∧ (∀ (e : MarkEnv) (b : Bool),
        (markitdownMain { e with unlinkOk := b }).printed = (markitdownMain e).printed
        ∧ (markitdownMain { e with unlinkOk := b }).cleanupAttempted
            = (markitdownMain e).cleanupAttempted)
    ∧ (∀ (e : TessEnv) (b : Bool),
        (tesseractMain { e with unlinkOk := b }).printed = (tesseractMain e).printed)
    ∧ (∀ e : MarkEnv, (markitdownMain e).cleanupAttempted
          = ((markitdownCore e).tmpCreated && e.tmpExists))
    ∧ (∀ e : TessEnv, (tesseractMain e).cleanupAttempted
          = ((tesseractCore e).tmpCreated && e.tmpExists))
    ∧ (∀ e : MarkEnv, (markitdownMain e).exitCode
          = if (markitdownMain e).cleanupAttempted && !e.unlinkOk then 1
            else (markitdownCore e).baseExit)
    ∧ (∀ e : TessEnv, (tesseractMain e).exitCode
          = if (tesseractMain e).cleanupAttempted && !e.unlinkOk then 1
            else (tesseractCore e).baseExit)
    ∧ (∀ (e : MineruEnv) (d pv : JVal) (bs : List Nat),
        e.payload ≠ "" → e.loads = .ok d → pyIn d "pdf" = .ok true →
        pyIndex d "pdf" = .ok pv → pyB64 e.b64 pv = .ok bs →
        (mineruMain e).cleanupAttempted = true) := by
  refine ⟨fun e b => by cases e; rfl,
          fun e b => by cases e; exact ⟨rfl, rfl⟩,
          fun e b => by cases e; rfl,
          fun e => rfl, fun e => rfl, fun e => rfl, fun e => rfl,
          fun e d pv bs hp hl hin hx hb => ?_⟩
  rw [mineruMain_decoded e d pv bs hp hl hin hx hb]
  exact mineruInner_cleanup e d

/-- C1 witness: the eighth part of the amended theorem at the concrete
successful mineru environment. -/
theorem c1_witness : (mineruMain mineruEnvOk).cleanupAttempted = true :=
  c1_cleanup_amended.2.2.2.2.2.2.2 mineruEnvOk pdfReq (.str "JVBERg==")
    [37, 80, 68, 70] (by decide) rfl rfl rfl rfl

/-- find_markdown_files returns a listing sorted ascending by path
string. -/
theorem find_markdown_files_sorted (l : List MdFile) :
    List.Sorted pathLe (find_markdown_files l) := by
  cases l with
  | nil => simp [find_markdown_files]
  | cons a as => exact List.sorted_insertionSort pathLe (a :: as)

/-- find_markdown_files returns a permutation of the rglob listing. -/
theorem find_markdown_files_perm (l : List MdFile) :
    (find_markdown_files l).Perm l := by
  cases l with
  | nil => simp [find_markdown_files]
  | cons a as => exact List.perm_insertionSort pathLe (a :: as)

/-- C2: when the external tool exits with status zero, the mineru engine
sorts the markdown files of the output directory ascending by their path
strings and joins their contents in that order with the fixed separator;
the emitted response is the success shape carrying that combined text. -/
theorem c2_sorted_concat (e : MineruEnv) (d pv : JVal) (bs : List Nat) (out err : String)
    (hp : e.payload ≠ "") (hl : e.loads = .ok d) (hin : pyIn d "pdf" = .ok true)
    (hx : pyIndex d "pdf" = .ok pv) (hb : pyB64 e.b64 pv = .ok bs)
    (hc : (mineruCmd e d).all JVal.isStr = true)
    (ht : validTimeoutArg (mineruTimeoutArg d) = true)
    (hr : e.run = .exited 0 out err) :
    respField (mineruMain e) "output"
      = some (.str (String.intercalate "\n\n---\n\n"
          ((find_markdown_files e.mdListing).map mdContent)))
    ∧ List.Sorted pathLe (find_markdown_files e.mdListing)
    ∧ (find_markdown_files e.mdListing).Perm e.mdListing
    ∧ respField (mineruMain e) "success" = some (.bool true)
    ∧ (mineruMain e).exitCode = 0 := by
  have hm := mineruMain_decoded e d pv bs hp hl hin hx hb
  have hi := mineruInner_exited e d 0 out err hc ht hr
  rw [hm, hi]
  refine ⟨?_, find_markdown_files_sorted _, find_markdown_files_perm _, ?_, ?_⟩
  · simp [respField, respObj, mineruSuccessObj, JVal.get, jLookup]
  · simp [respField, respObj, mineruSuccessObj, JVal.get, jLookup]
  · simp

/-- C2 witness: for the files b.md, a.md, c.md with contents B, A, C the
combined output is A, B, C joined by the fixed separator, in lexicographic
path order rather than discovery order. -/
theorem c2_witness :
    respField (mineruMain mineruEnvOk) "output" = some (.str "A\n\n---\n\nB\n\n---\n\nC") := by
  have h := (c2_sorted_concat mineruEnvOk pdfReq (.str "JVBERg==") [37, 80, 68, 70]
    "so" "se" (by decide) rfl rfl rfl rfl rfl rfl rfl).1
  exact h.trans (by rfl)

/-- C3: every non-zero exit of the external tool produces the failure
response carrying the observed return code and the captured stdout and
stderr, with exit status 1, whatever the contents of the output
directory. -/
theorem c3_nonzero_exit (e : MineruEnv) (d pv : JVal) (bs : List Nat) (rc : Int)
    (out err : String)
    (hp : e.payload ≠ "") (hl : e.loads = .ok d) (hin : pyIn d "pdf" = .ok true)
    (hx : pyIndex d "pdf" = .ok pv) (hb : pyB64 e.b64 pv = .ok bs)
    (hc : (mineruCmd e d).all JVal.isStr = true)
    (ht : validTimeoutArg (mineruTimeoutArg d) = true)
    (hr : e.run = .exited rc out err) (hrc : rc ≠ 0) :
    (mineruMain e).printed = [mineruRcFailObj rc out err]
    ∧ (mineruMain e).exitCode = 1
    ∧ respField (mineruMain e) "success" = some (.bool false)
    ∧ respField (mineruMain e) "returncode" = some (.num rc)
    ∧ respField (mineruMain e) "stdout" = some (.str out)
    ∧ respField (mineruMain e) "stderr" = some (.str err)
    ∧ ∀ l : List MdFile, mineruMain { e with mdListing := l } = mineruMain e := by
  have hm := mineruMain_decoded e d pv bs hp hl hin hx hb
  have hi := mineruInner_exited e d rc out err hc ht hr
  rw [hm, hi, if_pos hrc]
  refine ⟨rfl, rfl, ?_, ?_, ?_, ?_, ?_⟩
  · simp [respField, respObj, mineruRcFailObj, JVal.get, jLookup]
  · simp [respField, respObj, mineruRcFailObj, JVal.get, jLookup]
  · simp [respField, respObj, mineruRcFailObj, JVal.get, jLookup]
  · simp [respField, respObj, mineruRcFailObj, JVal.get, jLookup]
  · intro l
    have hm2 := mineruMain_decoded { e with mdListing := l } d pv bs hp hl hin hx hb
    have hi2 := mineruInner_exited { e with mdListing := l } d rc out err hc ht hr
    simp only [hm2, hi2, hm, hi, if_pos hrc]
    rfl

/-- A mineru environment whose child exits with status 2 even though the
output directory holds markdown files. -/
def mineruEnvRc : MineruEnv := { mineruEnvOk with run := .exited 2 "boom" "trace" }

/-- C3 witness: the non-zero-exit theorem at the concrete environment with
return code 2. -/
theorem c3_witness :
    (mineruMain mineruEnvRc).printed = [mineruRcFailObj 2 "boom" "trace"]
    ∧ (mineruMain mineruEnvRc).exitCode = 1 := by
  have h := c3_nonzero_exit mineruEnvRc pdfReq (.str "JVBERg==") [37, 80, 68, 70] 2
    "boom" "trace" (by decide) rfl rfl rfl rfl rfl rfl rfl (by decide)
  exact ⟨h.1, h.2.1⟩

/-- Every path of the scratch-directory body records the timeout value
handed to subprocess.run. -/
theorem mineruInner_timeoutTrace (e : MineruEnv) (d : JVal) :
    (mineruInner e d).timeoutTrace = some (mineruTimeoutArg d) := by
  simp only [mineruInner]
  repeat' split
  all_goals rfl

/-- The timeout failure message never coincides with the fixed error text
of the non-zero-exit failure. -/
theorem timeoutMsg_ne (cmd : List JVal) (t : JVal) :
    timeoutMsg cmd t ≠ "mineru CLI failed" := by
  intro h
  have h2 : (timeoutMsg cmd t).data = "mineru CLI failed".data := congrArg String.data h
  have h3 : (timeoutMsg cmd t).data
      = 'C' :: ("ommand \x27" ++ pyListStr cmd ++ "\x27 timed out after "
          ++ elemRepr t ++ " seconds").data := rfl
  have h4 : "mineru CLI failed".data = 'm' :: "ineru CLI failed".data := rfl
  rw [h3, h4] at h2
  injection h2 with hc _
  exact absurd hc (by decide)

/-- C4: the external process runs under the timeout taken from the
timeout_seconds field of the payload with default 240; when it expires the
emitted response is the failure shape with exit status 1 whose error is the
timeout message of the stdlib exception, distinguishable from a
non-zero-exit failure both by its text and by the absence of a returncode
field. (Termination of the expired child is performed by subprocess.run
itself, a stdlib capability outside this repository.) -/
theorem c4_timeout (e : MineruEnv) (d pv : JVal) (bs : List Nat) (po pe : String)
    (hp : e.payload ≠ "") (hl : e.loads = .ok d) (hin : pyIn d "pdf" = .ok true)
    (hx : pyIndex d "pdf" = .ok pv) (hb : pyB64 e.b64 pv = .ok bs)
    (hc : (mineruCmd e d).all JVal.isStr = true)
    (ht : validTimeoutArg (mineruTimeoutArg d) = true) :
    (mineruMain e).timeoutTrace = some ((d.get "timeout_seconds").getD (.num 240))
    ∧ (e.run = .timedOut po pe →
        (mineruMain e).printed
            = [mineruFailObj (timeoutMsg (mineruCmd e d) (mineruTimeoutArg d))]
        ∧ (mineruMain e).exitCode = 1
        ∧ respField (mineruMain e) "success" = some (.bool false)
        ∧ respField (mineruMain e) "returncode" = none
        ∧ timeoutMsg (mineruCmd e d) (mineruTimeoutArg d) ≠ "mineru CLI failed") := by
  have hm := mineruMain_decoded e d pv bs hp hl hin hx hb
  constructor
  · rw [hm]; exact mineruInner_timeoutTrace e d
  · intro hr
    have hi := mineruInner_timedOut e d po pe hc ht hr
    rw [hm, hi]
    refine ⟨rfl, rfl, ?_, ?_, timeoutMsg_ne _ _⟩
    · simp [respField, respObj, mkMineruFail, mineruFailObj, JVal.get, jLookup]
    · simp [respField, respObj, mkMineruFail, mineruFailObj, JVal.get, jLookup]

/-- A mineru environment that reaches the subprocess call and then observes
the timeout with the default 240-second limit. -/
def mineruEnvTimeout : MineruEnv := { mineruEnvOk with run := .timedOut "half" "" }

/-- C4 witness: the timeout theorem at the concrete environment without a
timeout_seconds field, so the default 240 is recorded. -/
theorem c4_witness :
    (mineruMain mineruEnvTimeout).timeoutTrace = some (.num 240)
    ∧ (mineruMain mineruEnvTimeout).exitCode = 1 := by
  have h := c4_timeout mineruEnvTimeout pdfReq (.str "JVBERg==") [37, 80, 68, 70]
    "half" "" (by decide) rfl rfl rfl rfl rfl rfl
  exact ⟨h.1, (h.2 rfl).2.1⟩

/-- C10: on timeout the emitted failure response consists of exactly the
success, engine and error fields; no returncode, stdout or stderr
diagnostics appear, and the output the child produced before the expiry is
discarded (the result is invariant under it). -/
theorem c10_timeout_shape (e : MineruEnv) (d pv : JVal) (bs : List Nat) (po pe : String)
    (hp : e.payload ≠ "") (hl : e.loads = .ok d) (hin : pyIn d "pdf" = .ok true)
    (hx : pyIndex d "pdf" = .ok pv) (hb : pyB64 e.b64 pv = .ok bs)
    (hc : (mineruCmd e d).all JVal.isStr = true)
    (ht : validTimeoutArg (mineruTimeoutArg d) = true)
    (hr : e.run = .timedOut po pe) :
    respObj (mineruMain e)
        = some (mineruFailObj (timeoutMsg (mineruCmd e d) (mineruTimeoutArg d)))
    ∧ jKeys (mineruFailObj (timeoutMsg (mineruCmd e d) (mineruTimeoutArg d)))
        = ["success", "engine", "error"]
    ∧ respField (mineruMain e) "returncode" = none
    ∧ respField (mineruMain e) "stdout" = none
    ∧ respField (mineruMain e) "stderr" = none
    ∧ ∀ po2 pe2 : String, mineruMain { e with run := .timedOut po2 pe2 } = mineruMain e := by
  have hm := mineruMain_decoded e d pv bs hp hl hin hx hb
  have hi := mineruInner_timedOut e d po pe hc ht hr
  refine ⟨?_, rfl, ?_, ?_, ?_, ?_⟩
  · rw [hm, hi]; rfl
  · rw [hm, hi]; simp [respField, respObj, mkMineruFail, mineruFailObj, JVal.get, jLookup]
  · rw [hm, hi]; simp [respField, respObj, mkMineruFail, mineruFailObj, JVal.get, jLookup]
  · rw [hm, hi]; simp [respField, respObj, mkMineruFail, mineruFailObj, JVal.get, jLookup]
  · intro po2 pe2
    have hm2 := mineruMain_decoded { e with run := .timedOut po2 pe2 } d pv bs hp hl hin hx hb
    have hi2 := mineruInner_timedOut { e with run := .timedOut po2 pe2 } d po2 pe2 hc ht rfl
    simp only [hm2, hi2, hm, hi]
    rfl

/-- A request object carrying an explicit timeout_seconds value. -/
def pdfReqT : JVal := .obj [("pdf", .str "JVBERg=="), ("timeout_seconds", .num 7)]

/-- A mineru environment with an explicit 7-second timeout whose child does
not exit in time. -/
def mineruEnvTimeout7 : MineruEnv :=
  { mineruEnvOk with loads := .ok pdfReqT, run := .timedOut "early output" "" }

/-- C10 witness: the timeout-shape theorem at the concrete environment with
an explicit timeout_seconds field. -/
theorem c10_witness :
    respField (mineruMain mineruEnvTimeout7) "returncode" = none
    ∧ respField (mineruMain mineruEnvTimeout7) "stdout" = none := by
  have h := c10_timeout_shape mineruEnvTimeout7 pdfReqT (.str "JVBERg==") [37, 80, 68, 70]
    "early output" "" (by decide) rfl rfl rfl rfl rfl rfl rfl
  exact ⟨h.2.2.1, h.2.2.2.1⟩

/-- The OCR loop succeeds on a listing whose pages all recognize, returning
the texts in page order. -/
theorem ocrAll_ok : ∀ ts : List String, ocrAll (ts.map Except.ok) = .ok ts
  | [] => rfl
  | t :: rest => by simp [ocrAll, ocrAll_ok rest]

/-- Conversely, a successful OCR loop means every page recognized and the
returned texts are exactly the per-page texts in page order. -/
theorem ocrAll_ok_inv : ∀ (ps : List (Except String String)) (us : List String),
    ocrAll ps = .ok us → ps = us.map Except.ok
  | [], us, h => by
    simp only [ocrAll, Except.ok.injEq] at h
    subst h; rfl
  | .error m :: _, us, h => by simp [ocrAll] at h
  | .ok t :: rest, us, h => by
    simp only [ocrAll] at h
    cases hrec : ocrAll rest with
    | error m => rw [hrec] at h; simp at h
    | ok ts =>
      rw [hrec] at h
      simp only [Except.ok.injEq] at h
      subst h
      simp only [List.map_cons, List.cons.injEq, true_and]
      exact ocrAll_ok_inv rest ts hrec

/-- C7: when every page of the rasterized document recognizes, the
tesseract engine emits the success response whose output is the per-page
texts joined with a blank line in page order. -/
theorem c7_page_join (e : TessEnv) (d pv : JVal) (bs : List Nat) (ts : List String)
    (hl : e.loads = .ok d) (hx : pyIndex d "pdf" = .ok pv)
    (hb : pyB64 e.b64 pv = .ok bs) (hr : e.rasterize = .ok (ts.map Except.ok)) :
    (tesseractMain e).printed = [engSuccessObj "tesseract" (String.intercalate "\n\n" ts)]
    ∧ (∀ (ps : List (Except String String)) (us : List String),
        ocrAll ps = .ok us → ps = us.map Except.ok) := by
  have hcore : tesseractCore e
      = { printed := [engSuccessObj "tesseract" (String.intercalate "\n\n" ts)],
          baseExit := 0, tmpCreated := true } := by
    simp only [tesseractCore, hl, hx, hb, hr, ocrAll_ok]
  refine ⟨?_, ocrAll_ok_inv⟩
  simp only [tesseractMain, hcore]

/-- A tesseract environment whose document rasterizes to three pages
recognizing to P1, P2, P3. -/
def tessEnv3 : TessEnv :=
  { loads := .ok pdfReq, b64 := b64demo,
    rasterize := .ok [.ok "P1", .ok "P2", .ok "P3"], tmpExists := true, unlinkOk := true }

/-- C7 witness: the three-page document produces the blank-line join in
page order. -/
theorem c7_witness :
    (tesseractMain tessEnv3).printed = [engSuccessObj "tesseract" "P1\n\nP2\n\nP3"] := by
  have h := (c7_page_join tessEnv3 pdfReq (.str "JVBERg==") [37, 80, 68, 70]
    ["P1", "P2", "P3"] rfl rfl rfl rfl).1
  exact h.trans (by rfl)

/-- Every path of the scratch-directory body records the argument list
handed to subprocess.run. -/
theorem mineruInner_cmdTrace (e : MineruEnv) (d : JVal) :
    (mineruInner e d).cmdTrace = some (mineruCmd e d) := by
  simp only [mineruInner]
  repeat' split
  all_goals rfl

/-- A request object whose cli_args is a list holding a non-string
element. -/
def pdfReqBadArgs : JVal := .obj [("pdf", .str "JVBERg=="), ("cli_args", .arr [.num 42])]

/-- A mineru environment receiving that request. -/
def mineruEnvBadArgs : MineruEnv := { mineruEnvOk with loads := .ok pdfReqBadArgs }

/-- C8 counterexample: a cli_args list holding the number 42 is not
validated as a sequence of strings before use; the non-string element is
passed into the argument list of the process spawn, which then raises the
TypeError reported as the failure response. -/
theorem c8_counterexample :
    (mineruMain mineruEnvBadArgs).cmdTrace
        = some [.str "mineru", .str "-p", .str "/tmp/mx/input.pdf",
                .str "-o", .str "/tmp/mx/out", .num 42]
    ∧ respField (mineruMain mineruEnvBadArgs) "success" = some (.bool false)
    ∧ respField (mineruMain mineruEnvBadArgs) "error"
        = some (.str "expected str, bytes or os.PathLike object")
    ∧ (mineruMain mineruEnvBadArgs).exitCode = 1 :=
  ⟨rfl, rfl, rfl, rfl⟩

/-- C8 (amended): cli_args is validated only as being a list. Any list
value, whatever its element types, is appended verbatim after the fixed
flags of the argument list handed to subprocess.run; a non-list value is
ignored rather than treated as an error; and a list containing a
non-string element is not filtered out, it makes the process spawn raise a
TypeError that the engine reports as an ordinary failure response with
exit status 1. -/
theorem c8_cli_args_amended :
    (∀ (e : MineruEnv) (d : JVal) (xs : List JVal), d.get "cli_args" = some (.arr xs) →
        mineruCmd e d = [.str "mineru", .str "-p", .str (e.tmpDir ++ "/input.pdf"),
          .str "-o", .str (e.tmpDir ++ "/out")] ++ xs)
    ∧ (∀ (e : MineruEnv) (d v : JVal), d.get "cli_args" = some v → (∀ xs, v ≠ .arr xs) →
        mineruCmd e d = [.str "mineru", .str "-p", .str (e.tmpDir ++ "/input.pdf"),
          .str "-o", .str (e.tmpDir ++ "/out")])
    ∧ (∀ (e : MineruEnv) (d pv : JVal) (bs : List Nat),
        e.payload ≠ "" → e.loads = .ok d → pyIn d "pdf" = .ok true →
        pyIndex d "pdf" = .ok pv → pyB64 e.b64 pv = .ok bs →
        (mineruMain e).cmdTrace = some (mineruCmd e d))
    ∧ (∀ (e : MineruEnv) (d pv : JVal) (bs : List Nat),
        e.payload ≠ "" → e.loads = .ok d → pyIn d "pdf" = .ok true →
        pyIndex d "pdf" = .ok pv → pyB64 e.b64 pv = .ok bs →
        (mineruCmd e d).all JVal.isStr = false →
        (mineruMain e).printed = [mineruFailObj "expected str, bytes or os.PathLike object"]
        ∧ (mineruMain e).exitCode = 1) := by
  refine ⟨?_, ?_, ?_, ?_⟩
  · intro e d xs h
    simp only [mineruCmd, h]
  · intro e d v h hne
    simp only [mineruCmd, h]
    cases v with
    | arr xs => exact absurd rfl (hne xs)
    | str s => rfl
    | num n => rfl
    | bool b => rfl
    | null => rfl
    | obj fs => rfl
  · intro e d pv bs hp hl hin hx hb
    rw [mineruMain_decoded e d pv bs hp hl hin hx hb]
    exact mineruInner_cmdTrace e d
  · intro e d pv bs hp hl hin hx hb hall
    rw [mineruMain_decoded e d pv bs hp hl hin hx hb]
    simp only [mineruInner, hall]
    exact ⟨rfl, rfl⟩

/-- A request object whose cli_args is a list of strings. -/
def pdfReqArgs : JVal :=
  .obj [("pdf", .str "JVBERg=="), ("cli_args", .arr [.str "--method", .str "ocr"])]

/-- C8 witness: a well-formed string list is appended verbatim after the
fixed flags. -/
theorem c8_witness :
    mineruCmd mineruEnvOk pdfReqArgs
      = [.str "mineru", .str "-p", .str "/tmp/mx/input.pdf", .str "-o", .str "/tmp/mx/out",
         .str "--method", .str "ocr"] := by
  have h := c8_cli_args_amended.1 mineruEnvOk pdfReqArgs [.str "--method", .str "ocr"] rfl
  exact h.trans (by rfl)

/-- A markdown file inside a nested directory of the output tree. -/
def mdR : MdFile := ⟨"/tmp/mx/out/r/full.md", "r/full.md", some "# doc", "# doc", 5⟩

/-- A mineru environment whose run succeeds with one generated file. -/
def mineruEnvOne : MineruEnv := { mineruEnvOk with mdListing := [mdR] }

/-- C9 counterexample: the success response has no artifacts key; the
generated files are listed under the key files. -/
theorem c9_counterexample :
    respField (mineruMain mineruEnvOne) "artifacts" = none
    ∧ respField (mineruMain mineruEnvOne) "files"
        = some (.arr [.obj [("path", .str "r/full.md"),
            ("full_path", .str "/tmp/mx/out/r/full.md"), ("size", .num 5)]])
    ∧ respField (mineruMain mineruEnvOne) "success" = some (.bool true) :=
  ⟨rfl, rfl, rfl⟩

/-- C9 (amended): every success response lists the generated files under
the key files (there is no artifacts key), each entry an object with the
keys path (the path relative to the output directory), full_path (the
absolute path) and size (the file size in bytes), in the sorted order of
the files. -/
theorem c9_files_key (e : MineruEnv) (d pv : JVal) (bs : List Nat) (out err : String)
    (hp : e.payload ≠ "") (hl : e.loads = .ok d) (hin : pyIn d "pdf" = .ok true)
    (hx : pyIndex d "pdf" = .ok pv) (hb : pyB64 e.b64 pv = .ok bs)
    (hc : (mineruCmd e d).all JVal.isStr = true)
    (ht : validTimeoutArg (mineruTimeoutArg d) = true)
    (hr : e.run = .exited 0 out err) :
    respField (mineruMain e) "files"
        = some (.arr ((find_markdown_files e.mdListing).map fileEntry))
    ∧ respField (mineruMain e) "artifacts" = none
    ∧ jKeys (mineruSuccessObj (find_markdown_files e.mdListing) out err)
        = ["success", "engine", "output", "files", "mineru_stdout", "mineru_stderr"]
    ∧ ∀ f : MdFile, jKeys (fileEntry f) = ["path", "full_path", "size"] := by
  have hm := mineruMain_decoded e d pv bs hp hl hin hx hb
  have hi := mineruInner_exited e d 0 out err hc ht hr
  refine ⟨?_, ?_, rfl, fun f => rfl⟩
  · rw [hm, hi]
    simp [respField, respObj, mineruSuccessObj, JVal.get, jLookup]
  · rw [hm, hi]
    simp [respField, respObj, mineruSuccessObj, JVal.get, jLookup]

/-- C9 witness: the amended theorem at the concrete one-file environment. -/
theorem c9_witness :
    respField (mineruMain mineruEnvOne) "files"
      = some (.arr [.obj [("path", .str "r/full.md"),
          ("full_path", .str "/tmp/mx/out/r/full.md"), ("size", .num 5)]]) := by
  have h := (c9_files_key mineruEnvOne pdfReq (.str "JVBERg==") [37, 80, 68, 70]
    "so" "se" (by decide) rfl rfl rfl rfl rfl rfl rfl).1
  exact h.trans (by rfl)

/-- A request object whose pdf field is the empty string. -/
def pdfReqEmpty : JVal := .obj [("pdf", .str "")]

/-- A mineru environment receiving an empty pdf value whose external tool
exits 0 without producing output files. -/
def mineruEnvEmptyPdf : MineruEnv :=
  { payload := "req", loads := .ok pdfReqEmpty, b64 := b64demo, tmpDir := "/tmp/mx",
    run := .exited 0 "" "", mdListing := [], rmtreeOk := true }

/-- C5 counterexample: a pdf value that is the empty string is not
non-empty decodable base64, yet nothing fails: base64.b64decode of the
empty string yields empty bytes, the engine runs, and with a zero exit the
emitted response is the success shape with exit status 0 instead of the
failure with exit status 1 the claim requires. -/
theorem c5_counterexample :
    respField (mineruMain mineruEnvEmptyPdf) "success" = some (.bool true)
    ∧ (mineruMain mineruEnvEmptyPdf).exitCode = 0 :=
  ⟨rfl, rfl⟩

/-- C5 (amended): an input stream that is not valid JSON, a parsed object
lacking the pdf field, or a pdf value whose base64 decoding raises, makes
every engine emit exactly one object, the failure response carrying the
exception message as its error, and exit with status 1; the empty input
stream fails the same way (an empty but decodable pdf value is not a
request-level failure). -/
theorem c5_decode_failures_amended :
    (∀ e : MineruEnv, e.payload = "" →
        (mineruMain e).printed = [mineruFailObj "No input payload provided on stdin"]
        ∧ (mineruMain e).exitCode = 1)
    ∧ (∀ (e : MineruEnv) (m : String), e.payload ≠ "" → e.loads = .error m →
        (mineruMain e).printed = [mineruFailObj m] ∧ (mineruMain e).exitCode = 1)
    ∧ (∀ (e : MineruEnv) (d : JVal), e.payload ≠ "" → e.loads = .ok d →
        pyIn d "pdf" = .ok false →
        (mineruMain e).printed = [mineruFailObj "Payload must include base64 \x27pdf\x27 field"]
        ∧ (mineruMain e).exitCode = 1)
    ∧ (∀ (e : MineruEnv) (d pv : JVal) (m : String), e.payload ≠ "" → e.loads = .ok d →
        pyIn d "pdf" = .ok true → pyIndex d "pdf" = .ok pv → pyB64 e.b64 pv = .error m →
        (mineruMain e).printed = [mineruFailObj m] ∧ (mineruMain e).exitCode = 1)
    ∧ (∀ (e : MarkEnv) (m : String), e.loads = .error m →
        (markitdownMain e).printed = [engFailObj "markitdown" m]
        ∧ (markitdownMain e).exitCode = 1)
    ∧ (∀ (e : MarkEnv) (d : JVal) (m : String), e.loads = .ok d → pyIndex d "pdf" = .error m →
        (markitdownMain e).printed = [engFailObj "markitdown" m]
        ∧ (markitdownMain e).exitCode = 1)
    ∧ (∀ (e : MarkEnv) (d pv : JVal) (m : String), e.loads = .ok d →
        pyIndex d "pdf" = .ok pv → pyB64 e.b64 pv = .error m →
        (markitdownMain e).printed = [engFailObj "markitdown" m]
        ∧ (markitdownMain e).exitCode = 1)
    ∧ (∀ (e : TessEnv) (d : JVal) (m : String),
        (e.loads = .error m → (tesseractMain e).printed = [engFailObj "tesseract" m]
          ∧ (tesseractMain e).exitCode = 1)
        ∧ (e.loads = .ok d → pyIndex d "pdf" = .error m →
            (tesseractMain e).printed = [engFailObj "tesseract" m]
            ∧ (tesseractMain e).exitCode = 1)) := by
  refine ⟨?_, ?_, ?_, ?_, ?_, ?_, ?_, ?_⟩
  · intro e hp
    simp only [mineruMain, if_pos hp]
    exact ⟨rfl, rfl⟩
  · intro e m hp hl
    simp only [mineruMain, if_neg hp, hl]
    exact ⟨rfl, rfl⟩
  · intro e d hp hl hin
    simp only [mineruMain, if_neg hp, hl, hin]
    exact ⟨rfl, rfl⟩
  · intro e d pv m hp hl hin hx hb
    simp only [mineruMain, if_neg hp, hl, hin, hx, hb]
    exact ⟨rfl, rfl⟩
  · intro e m hl
    simp only [markitdownMain, markitdownCore, hl]
    exact ⟨by trivial, by simp⟩
  · intro e d m hl hx
    simp only [markitdownMain, markitdownCore, hl, hx]
    exact ⟨by trivial, by simp⟩
  · intro e d pv m hl hx hb
    simp only [markitdownMain, markitdownCore, hl, hx, hb]
    exact ⟨by trivial, by simp⟩
  · intro e d m
    constructor
    · intro hl
      simp only [tesseractMain, tesseractCore, hl]
      exact ⟨by trivial, by simp⟩
    · intro hl hx
      simp only [tesseractMain, tesseractCore, hl, hx]
      exact ⟨by trivial, by simp⟩

/-- A mineru environment whose input stream is not JSON. -/
def mineruEnvBadJson : MineruEnv :=
  { payload := "not json", loads := .error "Expecting value: line 1 column 1 (char 0)",
    b64 := b64demo, tmpDir := "/tmp/mx", run := .exited 0 "" "", mdListing := [],
    rmtreeOk := true }

/-- C5 witness: the invalid-JSON case of the amended theorem at a concrete
environment. -/
theorem c5_witness :
    (mineruMain mineruEnvBadJson).printed
      = [mineruFailObj "Expecting value: line 1 column 1 (char 0)"]
    ∧ (mineruMain mineruEnvBadJson).exitCode = 1 :=
  c5_decode_failures_amended.2.1 mineruEnvBadJson
    "Expecting value: line 1 column 1 (char 0)" (by decide) rfl

/-- The mineru process exits 0 exactly when its response says success,
and never with a status other than 0 or 1. -/
theorem mineruMain_exit_iff (e : MineruEnv) :
    ((mineruMain e).exitCode = 0
      ↔ respField (mineruMain e) "success" = some (.bool true))
    ∧ (mineruMain e).exitCode ≤ 1 := by
  simp only [mineruMain, mineruInner]
  repeat' split
  all_goals simp [mkMineruFail, respField, respObj, mineruFailObj, mineruRcFailObj,
    mineruSuccessObj, JVal.get, jLookup]

/-- The markitdown process exits 0 exactly when its response says success
and the finally-block deletion did not fail, and never with a status other
than 0 or 1. -/
theorem markitdownMain_exit_iff (e : MarkEnv) :
    ((markitdownMain e).exitCode = 0
      ↔ (respField (markitdownMain e) "success" = some (.bool true)
          ∧ ¬((markitdownMain e).cleanupAttempted = true ∧ e.unlinkOk = false)))
    ∧ (markitdownMain e).exitCode ≤ 1 := by
  simp only [markitdownMain, markitdownCore]
  repeat' split
  all_goals simp_all [engFailObj, engSuccessObj, respField, respObj, JVal.get, jLookup]

/-- The tesseract process exits 0 exactly when its response says success
and the finally-block deletion did not fail, and never with a status other
than 0 or 1. -/
theorem tesseractMain_exit_iff (e : TessEnv) :
    ((tesseractMain e).exitCode = 0
      ↔ (respField (tesseractMain e) "success" = some (.bool true)
          ∧ ¬((tesseractMain e).cleanupAttempted = true ∧ e.unlinkOk = false)))
    ∧ (tesseractMain e).exitCode ≤ 1 := by
  simp only [tesseractMain, tesseractCore]
  repeat' split
  all_goals simp_all [engFailObj, engSuccessObj, respField, respObj, JVal.get, jLookup]

/-- A tesseract environment whose conversion succeeds but whose temp-file
deletion fails. -/
def tessEnvUnlink : TessEnv := { tessEnv3 with unlinkOk := false }

/-- C6 counterexample: a tesseract run whose response says success yet
whose process exit status is 1, because the unguarded os.unlink of the
finally block failed after the response was printed. -/
theorem c6_counterexample :
    respField (tesseractMain tessEnvUnlink) "success" = some (.bool true)
    ∧ (tesseractMain tessEnvUnlink).exitCode = 1 :=
  ⟨rfl, rfl⟩

/-- C6 (amended): the mineru process exits 0 exactly when its response
says success; the markitdown and tesseract processes exit 0 exactly when
the response says success and the finally-block deletion of the temporary
file did not fail (a failed deletion after a success response forces exit
status 1); no engine ever exits with a status other than 0 or 1. -/
theorem c6_exit_amended :
    (∀ e : MineruEnv, ((mineruMain e).exitCode = 0
        ↔ respField (mineruMain e) "success" = some (.bool true))
      ∧ (mineruMain e).exitCode ≤ 1)
    ∧ (∀ e : MarkEnv, ((markitdownMain e).exitCode = 0
        ↔ (respField (markitdownMain e) "success" = some (.bool true)
            ∧ ¬((markitdownMain e).cleanupAttempted = true ∧ e.unlinkOk = false)))
      ∧ (markitdownMain e).exitCode ≤ 1)
    ∧ (∀ e : TessEnv, ((tesseractMain e).exitCode = 0
        ↔ (respField (tesseractMain e) "success" = some (.bool true)
            ∧ ¬((tesseractMain e).cleanupAttempted = true ∧ e.unlinkOk = false)))
      ∧ (tesseractMain e).exitCode ≤ 1) :=
  ⟨mineruMain_exit_iff, markitdownMain_exit_iff, tesseractMain_exit_iff⟩
